import Mathlib

/-!
# The padplus event-stream adapter of go-wechaty (wechaty-puppet-padplus/padplus.go)

A shallow embedding of the adapter: the adapter struct `PuppetPadPlus` becomes a
record that is passed explicitly, every method becomes a function on that record,
a Go runtime failure (calling a nil function value, a failed type assertion, a
method call on a nil interface) becomes `Except.error`.

What is not in padplus.go is either a field of `Deps` (the JSON codec, the gRPC
backend, conversion helpers of the payload package) or a definition whose doc
comment says it is modelled from the specification (the two caches and the
embedded framework base type).  The `log.Printf` calls of the stream handler
write nothing to the adapter and are left out; the log lines of the shutdown
path are returned, because the shutdown path reports its errors only there.
-/

set_option linter.unusedVariables false

namespace pd

/-- Response types of the backend stream: the enumerators that padplus.go names,
and `other` for every further value of the generated enum. -/
inductive ResponseType where
  | LOGIN_QRCODE
  | QRCODE_SCAN
  | ACCOUNT_LOGOUT
  | MESSAGE_RECEIVE
  | QRCODE_LOGIN
  | AUTO_LOGIN
  | ACCOUNT_LOGIN
  | CONTACT_LIST
  | CONTACT_MODIFY
  | other (code : Int)
  deriving DecidableEq, Repr

/-- One message read off the stream (`pd.StreamResponse`); the optional proto
fields are taken as present. -/
structure StreamResponse where
  ResponseType : ResponseType
  Data : String
  TraceId : String := ""
  RequestId : String := ""
  Uin : String := ""
  deriving DecidableEq, Repr

end pd

namespace payload

/-- Gender constant written into the contact built from a QR-code login.
Modelled from the spec: the payload package is not part of the sources; the
specification says the gender of that contact "defaults to unknown". -/
def ContactGenderUnknown : Int := 0

/-- Canonical contact record (`payload.ContactPayload`), with the fields
padplus.go uses; `{}` is the Go zero value. -/
structure ContactPayload where
  Alias : String := ""
  ContactType : Int := 0
  BigHeadUrl : String := ""
  NickName : String := ""
  Sex : Int := 0
  UserName : String := ""
  deriving DecidableEq, Repr

/-- Contact modification record (`payload.RPCContactPayload`). -/
structure RPCContactPayload where
  UserName : String := ""
  Alias : String := ""
  NickName : String := ""
  BigHeadUrl : String := ""
  deriving DecidableEq, Repr

/-- Decoded message (`payload.MessagePayload`). -/
structure MessagePayload where
  MsgId : String := ""
  MsgType : Int := 0
  Content : String := ""
  deriving DecidableEq, Repr

/-- Payload of a QRCODE_LOGIN response. -/
structure QrCodeLogin where
  UserName : String := ""
  Alias : String := ""
  HeadImgUrl : String := ""
  NickName : String := ""
  deriving DecidableEq, Repr

/-- The `WechatUser` member of an automatic-login response. -/
structure WechatUser where
  UserName : String := ""
  deriving DecidableEq, Repr

/-- Payload of an AUTO_LOGIN response. -/
structure AutoLoginResponse where
  WechatUser : WechatUser := {}
  deriving DecidableEq, Repr

/-- Payload of an ACCOUNT_LOGOUT response. -/
structure LogoutGRPCResponse where
  Uin : String := ""
  deriving DecidableEq, Repr

/-- Payload of a QRCODE_SCAN response. -/
structure EventScanData where
  Status : Int := 0
  QrCodeId : String := ""
  deriving DecidableEq, Repr

/-- Payload of a LOGIN_QRCODE response. -/
structure EventPadPlusQrCode where
  QrCode : String := ""
  QrCodeId : String := ""
  deriving DecidableEq, Repr

end payload

/-- Dynamic values behind the `interface{}` that the payload generators return:
one alternative per pointer type of `pbEventType2GeneratePayloadFunc`. -/
inductive GrpcData where
  | QrCodeLogin (v : payload.QrCodeLogin)
  | MessagePayload (v : payload.MessagePayload)
  | ContactPayload (v : payload.ContactPayload)
  | RPCContactPayload (v : payload.RPCContactPayload)
  | EventPadPlusQrCode (v : payload.EventPadPlusQrCode)
  | EventScanData (v : payload.EventScanData)
  | LogoutGRPCResponse (v : payload.LogoutGRPCResponse)
  | AutoLoginResponse (v : payload.AutoLoginResponse)
  deriving DecidableEq, Repr

namespace schemas

/-- Event names of the host framework.  `zero` is the Go zero value of the type,
which is what a failed map lookup yields. -/
inductive PuppetEventName where
  | zero
  | Scan
  | Login
  | Logout
  | Message
  | Reset
  deriving DecidableEq, Repr

/-- Scan event; `Data` is the member of the embedded `BaseEventPayload`. -/
structure EventScanPayload where
  Data : String := ""
  Status : Int := 0
  QrCode : String := ""
  deriving DecidableEq, Repr

/-- Login event. -/
structure EventLoginPayload where
  Data : String := ""
  ContactId : String := ""
  deriving DecidableEq, Repr

/-- Logout event. -/
structure EventLogoutPayload where
  Data : String := ""
  ContactId : String := ""
  deriving DecidableEq, Repr

/-- Message event. -/
structure EventMessagePayload where
  Data : String := ""
  MessageId : String := ""
  deriving DecidableEq, Repr

/-- Reset event. -/
structure EventResetPayload where
  Data : String := ""
  deriving DecidableEq, Repr

end schemas

/-- One argument of a call of `Emit`: an event name, one of the framework
payloads, or a backend value handed over untranslated. -/
inductive EmitArg where
  | eventName (n : schemas.PuppetEventName)
  | scan (e : schemas.EventScanPayload)
  | login (e : schemas.EventLoginPayload)
  | logout (e : schemas.EventLogoutPayload)
  | message (e : schemas.EventMessagePayload)
  | reset (e : schemas.EventResetPayload)
  | data (d : GrpcData)
  deriving DecidableEq, Repr

namespace cache

/-- Modelled from the spec: the cache package is not part of the sources.  The
specification describes each cache as a key-value store with
`store(key, value)` and `load(key) -> (value, found)`, keys unique, an upsert
replacing the value of its key. -/
abbrev Map (V : Type) := List (String × V)

/-- Modelled from the spec: `store(key, value)`, an upsert. -/
def Map.Store {V : Type} (m : Map V) (key : String) (value : V) : Map V :=
  (key, value) :: m.filter (fun e => e.1 != key)

/-- Modelled from the spec: `load(key) -> (value, found)`. -/
def Map.Load {V : Type} (m : Map V) (key : String) : Option V :=
  match m with
  | [] => none
  | e :: rest => if e.1 = key then some e.2 else Map.Load rest key

/-- Message cache, keyed by message id. -/
abbrev MessagePayload := Map payload.MessagePayload

/-- Contact cache, keyed by username. -/
abbrev ContactPayload := Map payload.ContactPayload

end cache

namespace wechatyPuppet

/-- Modelled from the spec: the framework base type embedded in the adapter is
not part of the sources.  The specification gives the adapter two calls on it,
`emit(eventName, payload)` and `setIdentity(id)`, besides the configuration
(`token`, `endpoint`); `emitted` records the calls of `Emit` in order. -/
structure Puppet where
  Token : String := ""
  Endpoint : String := ""
  id : String := ""
  emitted : List (List EmitArg) := []
  deriving DecidableEq, Repr

/-- Modelled from the spec: `setIdentity(id)` of the framework base type. -/
def Puppet.SetID (b : Puppet) (id : String) : Puppet :=
  { b with id := id }

/-- Modelled from the spec: `emit`, recorded as one call with its arguments. -/
def Puppet.Emit (b : Puppet) (args : List EmitArg) : Puppet :=
  { b with emitted := b.emitted ++ [args] }

end wechatyPuppet

/-- The adapter (`PuppetPadPlus`).  The connection, the client and the stream are
handles, `none` standing for nil. -/
structure PuppetPadPlus where
  Puppet : wechatyPuppet.Puppet := {}
  grpcConn : Option Nat := none
  grpcClient : Option Nat := none
  eventStream : Option Nat := none
  Uin : String := ""
  messagePayload : cache.MessagePayload := []
  contactPayload : cache.ContactPayload := []
  deriving DecidableEq, Repr

/-- Runtime failures of the Go code. -/
inductive GoPanic where
  | nilFuncCall
  | typeAssertion
  | nilInterface
  deriving DecidableEq, Repr

deriving instance DecidableEq for Except

/-- What padplus.go calls and does not define: `json.Unmarshal` into each payload
type (the value left in the target and the error, if any), `json.Marshal` of a
logout response, the two conversion methods of the payload package, and the
backend (`Init` of the client, `CloseSend` of a stream). -/
structure Deps where
  unmarshalQrCodeLogin : String → payload.QrCodeLogin → payload.QrCodeLogin × Option String
  unmarshalMessagePayload : String → payload.MessagePayload → payload.MessagePayload × Option String
  unmarshalContactPayload : String → payload.ContactPayload → payload.ContactPayload × Option String
  unmarshalRPCContactPayload :
    String → payload.RPCContactPayload → payload.RPCContactPayload × Option String
  unmarshalEventPadPlusQrCode :
    String → payload.EventPadPlusQrCode → payload.EventPadPlusQrCode × Option String
  unmarshalEventScanData : String → payload.EventScanData → payload.EventScanData × Option String
  unmarshalLogoutGRPCResponse :
    String → payload.LogoutGRPCResponse → payload.LogoutGRPCResponse × Option String
  unmarshalAutoLoginResponse :
    String → payload.AutoLoginResponse → payload.AutoLoginResponse × Option String
  marshalLogoutGRPCResponse : payload.LogoutGRPCResponse → String
  ToPuppetStatus : Int → Int
  ToContactPayload : payload.RPCContactPayload → payload.ContactPayload
  Init : String → Except String Nat
  CloseSend : Nat → Option String

/-- The call `json.Unmarshal([]byte(data), v)`: decoding goes by the dynamic type
of the target. -/
def jsonUnmarshal (d : Deps) (data : String) (v : GrpcData) : GrpcData × Option String :=
  match v with
  | .QrCodeLogin x => ((GrpcData.QrCodeLogin (d.unmarshalQrCodeLogin data x).1), (d.unmarshalQrCodeLogin data x).2)
  | .MessagePayload x =>
      ((GrpcData.MessagePayload (d.unmarshalMessagePayload data x).1), (d.unmarshalMessagePayload data x).2)
  | .ContactPayload x =>
      ((GrpcData.ContactPayload (d.unmarshalContactPayload data x).1), (d.unmarshalContactPayload data x).2)
  | .RPCContactPayload x =>
      ((GrpcData.RPCContactPayload (d.unmarshalRPCContactPayload data x).1),
        (d.unmarshalRPCContactPayload data x).2)
  | .EventPadPlusQrCode x =>
      ((GrpcData.EventPadPlusQrCode (d.unmarshalEventPadPlusQrCode data x).1),
        (d.unmarshalEventPadPlusQrCode data x).2)
  | .EventScanData x =>
      ((GrpcData.EventScanData (d.unmarshalEventScanData data x).1), (d.unmarshalEventScanData data x).2)
  | .LogoutGRPCResponse x =>
      ((GrpcData.LogoutGRPCResponse (d.unmarshalLogoutGRPCResponse data x).1),
        (d.unmarshalLogoutGRPCResponse data x).2)
  | .AutoLoginResponse x =>
      ((GrpcData.AutoLoginResponse (d.unmarshalAutoLoginResponse data x).1),
        (d.unmarshalAutoLoginResponse data x).2)

/-- The method `unMarshal`: the decoding error is logged and dropped, the target
is used as decoding left it. -/
def unMarshal (d : Deps) (data : String) (v : GrpcData) : GrpcData :=
  (jsonUnmarshal d data v).1

/-- The method `isLogin`. -/
def isLogin (p : PuppetPadPlus) : Bool :=
  p.Uin != ""

/-- The promoted method `SetID` of the embedded base type. -/
def PuppetPadPlus.SetID (p : PuppetPadPlus) (id : String) : PuppetPadPlus :=
  { p with Puppet := p.Puppet.SetID id }

/-- The promoted method `Emit` of the embedded base type. -/
def PuppetPadPlus.Emit (p : PuppetPadPlus) (args : List EmitArg) : PuppetPadPlus :=
  { p with Puppet := p.Puppet.Emit args }

/-- The table `pbEventType2PuppetEventName`. -/
def pbEventType2PuppetEventName : pd.ResponseType → Option schemas.PuppetEventName
  | .LOGIN_QRCODE => some .Scan
  | .QRCODE_SCAN => some .Scan
  | .ACCOUNT_LOGOUT => some .Logout
  | .MESSAGE_RECEIVE => some .Message
  | .QRCODE_LOGIN => some .Login
  | .AUTO_LOGIN => some .Login
  | .ACCOUNT_LOGIN => some .Login
  | _ => none

/-- The table `pbEventType2GeneratePayloadFunc`; a generator returns a pointer to
a zero value. -/
def pbEventType2GeneratePayloadFunc : pd.ResponseType → Option (Unit → GrpcData)
  | .QRCODE_LOGIN => some (fun _ => .QrCodeLogin {})
  | .MESSAGE_RECEIVE => some (fun _ => .MessagePayload {})
  | .CONTACT_LIST => some (fun _ => .ContactPayload {})
  | .CONTACT_MODIFY => some (fun _ => .RPCContactPayload {})
  | .LOGIN_QRCODE => some (fun _ => .EventPadPlusQrCode {})
  | .QRCODE_SCAN => some (fun _ => .EventScanData {})
  | .ACCOUNT_LOGOUT => some (fun _ => .LogoutGRPCResponse {})
  | .AUTO_LOGIN => some (fun _ => .AutoLoginResponse {})
  | _ => none

/-- The method `eventPayload2PuppetPayload`: the adapter after the side effects of
the translation, and the value returned.  The `default` branch prints and falls
through to `return data`. -/
def eventPayload2PuppetPayload (d : Deps) (p : PuppetPadPlus) (data : GrpcData) :
    PuppetPadPlus × EmitArg :=
  match data with
  | .EventScanData t => (p, .scan { Status := d.ToPuppetStatus t.Status, QrCode := t.QrCodeId })
  | .EventPadPlusQrCode t => (p, .scan { Data := t.QrCode, Status := 0, QrCode := t.QrCodeId })
  | .LogoutGRPCResponse t =>
      (p, .logout { ContactId := t.Uin, Data := d.marshalLogoutGRPCResponse t })
  | .MessagePayload t =>
      ({ p with messagePayload := p.messagePayload.Store t.MsgId t }, .message { MessageId := t.MsgId })
  | .QrCodeLogin t => (p.SetID t.UserName, .login { ContactId := t.UserName })
  | .AutoLoginResponse t =>
      (p.SetID t.WechatUser.UserName, .login { ContactId := t.WechatUser.UserName })
  | other => (p, .data other)

/-- The `switch *resp.ResponseType` of `onGrpcStreamEvent` (the internal events):
each `data.(*T)` is a type assertion. -/
def internalEvent (d : Deps) (p : PuppetPadPlus) (rt : pd.ResponseType) (data : GrpcData) :
    Except GoPanic PuppetPadPlus :=
  match rt with
  | .QRCODE_LOGIN =>
      match data with
      | .QrCodeLogin t =>
          .ok { p with
            contactPayload := p.contactPayload.Store t.UserName
              { Alias := t.Alias
                ContactType := 3
                BigHeadUrl := t.HeadImgUrl
                NickName := t.NickName
                Sex := payload.ContactGenderUnknown
                UserName := t.UserName } }
      | _ => .error .typeAssertion
  | .ACCOUNT_LOGOUT => .ok (p.SetID "")
  | .MESSAGE_RECEIVE => .ok p
  | .CONTACT_LIST =>
      match data with
      | .ContactPayload t => .ok { p with contactPayload := p.contactPayload.Store t.UserName t }
      | _ => .error .typeAssertion
  | .CONTACT_MODIFY =>
      match data with
      | .RPCContactPayload t =>
          .ok { p with contactPayload := p.contactPayload.Store t.UserName (d.ToContactPayload t) }
      | _ => .error .typeAssertion
  | _ => .ok p

/-- The method `onGrpcStreamEvent`. -/
def onGrpcStreamEvent (d : Deps) (p : PuppetPadPlus) (resp : pd.StreamResponse) :
    Except GoPanic PuppetPadPlus :=
  if resp.Data = "EXPIRED_TOKEN" ∨ resp.Data = "INVALID_TOKEN" then
    .ok p
  else
    let eventName := (pbEventType2PuppetEventName resp.ResponseType).getD .zero
    let ok := (pbEventType2PuppetEventName resp.ResponseType).isSome
    if !ok && resp.ResponseType != .CONTACT_LIST then
      .ok p
    else
      match pbEventType2GeneratePayloadFunc resp.ResponseType with
      | none => .error .nilFuncCall
      | some gen =>
          let data := unMarshal d resp.Data (gen ())
          match internalEvent d p resp.ResponseType data with
          | .error e => .error e
          | .ok p1 =>
              let r := eventPayload2PuppetPayload d p1 data
              .ok (r.1.Emit [.eventName eventName, r.2])

/-- Calls made on the gRPC backend. -/
inductive BackendCall where
  | Init (token : String)
  | CloseSend (stream : Nat)
  | Close (conn : Nat)
  deriving DecidableEq, Repr

/-- The method `stopGrpcClient`: the adapter afterwards, the error returned and
the backend calls made. -/
def stopGrpcClient (p : PuppetPadPlus) : PuppetPadPlus × Option String × List BackendCall :=
  match p.grpcConn with
  | none => (p, some "puppetClient had not inited", [])
  | some c => ({ p with grpcConn := none, grpcClient := none }, none, [.Close c])

/-- Result of `stopGrpcStream`. -/
structure StopStreamResult where
  p : PuppetPadPlus
  err : Option String
  logs : List String
  calls : List BackendCall
  deriving DecidableEq, Repr

/-- The method `stopGrpcStream`: an error of `CloseSend` is logged, not returned. -/
def stopGrpcStream (d : Deps) (p : PuppetPadPlus) : StopStreamResult :=
  match p.eventStream with
  | none =>
      { p := p, err := some "no event stream", logs := ["PuppetPadPlus stopGrpcStream()"], calls := [] }
  | some s =>
      { p := { p with eventStream := none }
        err := none
        logs := "PuppetPadPlus stopGrpcStream()" ::
          (match d.CloseSend s with
            | some e => ["PuppetHostie stopGrpcStream() err: " ++ e ++ "\n"]
            | none => [])
        calls := [.CloseSend s] }

/-- Result of `Stop`, which returns nothing: the adapter afterwards, the lines
logged and the backend calls made. -/
structure StopResult where
  p : PuppetPadPlus
  logs : List String
  calls : List BackendCall
  deriving DecidableEq, Repr

/-- The method `Stop`.  The deferred function logs `err` when it is set. -/
def Stop (d : Deps) (p : PuppetPadPlus) : StopResult :=
  let p1 :=
    if isLogin p then
      { (p.Emit [.logout { ContactId := p.Uin, Data := "PuppetPadPlus Stop()" }]) with Uin := "" }
    else p
  let r := stopGrpcStream d p1
  match r.err with
  | some e =>
      { p := r.p, logs := r.logs ++ ["PuppetHostie Stop err: " ++ e ++ "\n"], calls := r.calls }
  | none =>
      match stopGrpcClient r.p with
      | (p2, some e, calls) =>
          { p := p2, logs := r.logs ++ ["PuppetHostie Stop err: " ++ e ++ "\n"], calls := r.calls ++ calls }
      | (p2, none, calls) => { p := p2, logs := r.logs, calls := r.calls ++ calls }

/-- Result of `startGrpcStream`: the adapter afterwards, the error returned, the
backend calls made, and whether the reading goroutine was started. -/
structure StartStreamResult where
  p : PuppetPadPlus
  err : Option String
  calls : List BackendCall
  reading : Bool
  deriving DecidableEq, Repr

/-- The method `startGrpcStream`, up to the start of the reading goroutine.  The
deferred function wraps a returned error as `startGrpcStream err:%w`. -/
def startGrpcStream (d : Deps) (p : PuppetPadPlus) : Except GoPanic StartStreamResult :=
  if p.eventStream.isSome then
    .ok { p := p, err := some ("startGrpcStream err:" ++ "event stream exists"), calls := [], reading := false }
  else
    match p.grpcClient with
    | none => .error .nilInterface
    | some _ =>
        match d.Init p.Puppet.Token with
        | .error e =>
            .ok { p := { p with eventStream := none }
                  err := some ("startGrpcStream err:" ++ e)
                  calls := [.Init p.Puppet.Token]
                  reading := false }
        | .ok s =>
            .ok { p := { p with eventStream := some s }
                  err := none
                  calls := [.Init p.Puppet.Token]
                  reading := true }

/-- Outcome of one `p.eventStream.Recv()`: a message, `io.EOF`, or another error
with its text. -/
inductive RecvResult where
  | reply (r : pd.StreamResponse)
  | EOF
  | err (text : String)
  deriving DecidableEq, Repr

/-- State of the reading goroutine after a run: the adapter as the loop itself left
it, the messages handed to `go p.onGrpcStreamEvent(reply)` in receive order, the
receive results never asked for, and whether the loop reached a `break`. -/
structure ReadLoop where
  p : PuppetPadPlus
  dispatched : List pd.StreamResponse
  unread : List RecvResult
  exited : Bool
  deriving DecidableEq, Repr

/-- The reading goroutine of `startGrpcStream`, run over the receive results of the
stream.  When the results are used up the loop is blocked in `Recv`.  The handlers
it starts run on goroutines of their own and are not run here. -/
def readLoop (p : PuppetPadPlus) : List RecvResult → ReadLoop
  | [] => { p := p, dispatched := [], unread := [], exited := false }
  | .EOF :: rest => { p := p, dispatched := [], unread := rest, exited := true }
  | .err text :: rest =>
      { p := p.Emit [.eventName .Reset,
            .reset { Data := "startGrpcStream() eventStream err: " ++ text }]
        dispatched := []
        unread := rest
        exited := true }
  | .reply r :: rest =>
      let s := readLoop p rest
      { s with dispatched := r :: s.dispatched }

/-- A small codec and backend for evaluating the adapter on concrete messages: each
decoder knows one document of its type and reports an error on any other text. -/
def sampleDeps : Deps where
  unmarshalQrCodeLogin := fun raw v =>
    if raw = "\x7b\"UserName\":\"wxid_a\",\"NickName\":\"Ann\"\x7d" then
      ({ v with UserName := "wxid_a", NickName := "Ann" }, none)
    else (v, some "invalid character")
  unmarshalMessagePayload := fun raw v =>
    if raw = "\x7b\"MsgId\":\"m1\",\"Content\":\"hi\"\x7d" then
      ({ v with MsgId := "m1", Content := "hi" }, none)
    else (v, some "invalid character")
  unmarshalContactPayload := fun raw v =>
    if raw = "\x7b\"UserName\":\"wxid_b\",\"NickName\":\"Bob\"\x7d" then
      ({ v with UserName := "wxid_b", NickName := "Bob" }, none)
    else (v, some "invalid character")
  unmarshalRPCContactPayload := fun raw v =>
    if raw = "\x7b\"UserName\":\"wxid_c\",\"NickName\":\"Cy\"\x7d" then
      ({ v with UserName := "wxid_c", NickName := "Cy" }, none)
    else (v, some "invalid character")
  unmarshalEventPadPlusQrCode := fun raw v =>
    if raw = "\x7b\"QrCode\":\"img\",\"QrCodeId\":\"q1\"\x7d" then
      ({ v with QrCode := "img", QrCodeId := "q1" }, none)
    else (v, some "invalid character")
  unmarshalEventScanData := fun raw v =>
    if raw = "\x7b\"Status\":1,\"QrCodeId\":\"q1\"\x7d" then
      ({ v with Status := 1, QrCodeId := "q1" }, none)
    else (v, some "invalid character")
  unmarshalLogoutGRPCResponse := fun raw v =>
    if raw = "\x7b\"Uin\":\"42\"\x7d" then ({ v with Uin := "42" }, none)
    else (v, some "invalid character")
  unmarshalAutoLoginResponse := fun raw v =>
    if raw = "\x7b\"WechatUser\":\x7b\"UserName\":\"wxid_a\"\x7d\x7d" then
      ({ v with WechatUser := { UserName := "wxid_a" } }, none)
    else (v, some "invalid character")
  marshalLogoutGRPCResponse := fun v => "\x7b\"Uin\":\"" ++ v.Uin ++ "\"\x7d"
  ToPuppetStatus := fun s => s
  ToContactPayload := fun c =>
    { Alias := c.Alias, BigHeadUrl := c.BigHeadUrl, NickName := c.NickName, UserName := c.UserName }
  Init := fun _ => .ok 1
  CloseSend := fun _ => none

/-- Kind of event that a payload handed to `Emit` belongs to; a backend value
handed over untranslated belongs to none. -/
def EmitArg.kind : EmitArg → Option schemas.PuppetEventName
  | .scan _ => some .Scan
  | .login _ => some .Login
  | .logout _ => some .Logout
  | .message _ => some .Message
  | .reset _ => some .Reset
  | .eventName _ => none
  | .data _ => none

/-! ## Facts about the cache model and the handler, used below -/

theorem cache_Load_Store {V : Type} (m : cache.Map V) (key : String) (value : V) :
    (m.Store key value).Load key = some value := by
  simp [cache.Map.Store, cache.Map.Load]

theorem eventPayload2PuppetPayload_Uin (d : Deps) (p : PuppetPadPlus) (data : GrpcData) :
    (eventPayload2PuppetPayload d p data).1.Uin = p.Uin := by
  cases data <;> rfl

theorem eventPayload2PuppetPayload_contactPayload (d : Deps) (p : PuppetPadPlus)
    (data : GrpcData) :
    (eventPayload2PuppetPayload d p data).1.contactPayload = p.contactPayload := by
  cases data <;> rfl

theorem internalEvent_Uin (d : Deps) (p q : PuppetPadPlus) (rt : pd.ResponseType)
    (data : GrpcData) (h : internalEvent d p rt data = .ok q) : q.Uin = p.Uin := by
  cases rt <;> cases data <;> simp [internalEvent, PuppetPadPlus.SetID] at h <;> subst h <;> rfl

theorem onGrpcStreamEvent_Uin (d : Deps) (p q : PuppetPadPlus) (resp : pd.StreamResponse)
    (h : onGrpcStreamEvent d p resp = .ok q) : q.Uin = p.Uin := by
  obtain ⟨rt, raw, t, r, u⟩ := resp
  by_cases hs : raw = "EXPIRED_TOKEN" ∨ raw = "INVALID_TOKEN"
  · simp [onGrpcStreamEvent, hs] at h
    subst h
    rfl
  · cases rt <;>
      simp [onGrpcStreamEvent, hs, pbEventType2PuppetEventName, pbEventType2GeneratePayloadFunc,
        internalEvent, unMarshal, jsonUnmarshal, eventPayload2PuppetPayload, PuppetPadPlus.SetID,
        PuppetPadPlus.Emit] at h <;>
      subst h <;> rfl

/-- The six response types that have an entry in both tables: the handler
completes and calls `Emit` once, with the event name of the table and a payload
of that kind. -/
theorem onGrpcStreamEvent_both_tables (d : Deps) (p : PuppetPadPlus) (rt : pd.ResponseType)
    (raw t r u : String) (n : schemas.PuppetEventName)
    (hn : pbEventType2PuppetEventName rt = some n)
    (hg : (pbEventType2GeneratePayloadFunc rt).isSome = true)
    (h1 : raw ≠ "EXPIRED_TOKEN") (h2 : raw ≠ "INVALID_TOKEN") :
    ∃ q arg, onGrpcStreamEvent d p ⟨rt, raw, t, r, u⟩ = .ok q ∧
      q.Puppet.emitted = p.Puppet.emitted ++ [[.eventName n, arg]] ∧ arg.kind = some n := by
  cases rt <;>
    simp [pbEventType2PuppetEventName, pbEventType2GeneratePayloadFunc] at hn hg <;>
    subst hn <;>
    simp [onGrpcStreamEvent, h1, h2, pbEventType2PuppetEventName,
      pbEventType2GeneratePayloadFunc, internalEvent, unMarshal, jsonUnmarshal,
      eventPayload2PuppetPayload, PuppetPadPlus.SetID, PuppetPadPlus.Emit,
      wechatyPuppet.Puppet.Emit, wechatyPuppet.Puppet.SetID, EmitArg.kind]

/-! ## The claims -/

/-- C1, failing case: ACCOUNT_LOGIN is a key of `pbEventType2PuppetEventName` (its
entry is Login), and yet for every payload that is not a token sentinel the
handler does not complete: `pbEventType2GeneratePayloadFunc` has no entry for
ACCOUNT_LOGIN, so the handler calls a nil function value.  No event is emitted. -/
theorem onGrpcStreamEvent_ACCOUNT_LOGIN_fails (d : Deps) (p : PuppetPadPlus)
    (raw t r u : String) (h1 : raw ≠ "EXPIRED_TOKEN") (h2 : raw ≠ "INVALID_TOKEN") :
    pbEventType2PuppetEventName .ACCOUNT_LOGIN = some .Login ∧
      onGrpcStreamEvent d p ⟨.ACCOUNT_LOGIN, raw, t, r, u⟩ = .error .nilFuncCall := by
  refine ⟨rfl, ?_⟩
  simp [onGrpcStreamEvent, h1, h2, pbEventType2PuppetEventName, pbEventType2GeneratePayloadFunc]

/-- C1, failing case evaluated: an ACCOUNT_LOGIN message with a login document on a
fresh adapter. -/
theorem onGrpcStreamEvent_ACCOUNT_LOGIN_fails_witness :
    "\x7b\"UserName\":\"wxid_a\",\"NickName\":\"Ann\"\x7d" ≠ "EXPIRED_TOKEN" ∧
    "\x7b\"UserName\":\"wxid_a\",\"NickName\":\"Ann\"\x7d" ≠ "INVALID_TOKEN" ∧
    pbEventType2PuppetEventName .ACCOUNT_LOGIN = some .Login ∧
    onGrpcStreamEvent sampleDeps {}
      ⟨.ACCOUNT_LOGIN, "\x7b\"UserName\":\"wxid_a\",\"NickName\":\"Ann\"\x7d", "", "", ""⟩
      = .error .nilFuncCall :=
  ⟨by decide, by decide,
    onGrpcStreamEvent_ACCOUNT_LOGIN_fails sampleDeps {}
      "\x7b\"UserName\":\"wxid_a\",\"NickName\":\"Ann\"\x7d" "" "" "" (by decide) (by decide)⟩

/-- C2, divergence: whatever message the handler processes, `isLogin` answers
afterwards what it answered before, because `isLogin` reads the field `Uin` and
the handler records a login or logout only through `SetID`; and an AUTO_LOGIN
message leaves the contact cache as it was. -/
theorem onGrpcStreamEvent_isLogin_unchanged (d : Deps) (p q : PuppetPadPlus)
    (resp : pd.StreamResponse) (h : onGrpcStreamEvent d p resp = .ok q) :
    isLogin q = isLogin p ∧
      (resp.ResponseType = .AUTO_LOGIN → q.contactPayload = p.contactPayload) := by
  refine ⟨by simp [isLogin, onGrpcStreamEvent_Uin d p q resp h], ?_⟩
  intro hrt
  obtain ⟨rt, raw, t, r, u⟩ := resp
  simp only at hrt
  subst hrt
  by_cases hs : raw = "EXPIRED_TOKEN" ∨ raw = "INVALID_TOKEN"
  · simp [onGrpcStreamEvent, hs] at h
    subst h
    rfl
  · simp [onGrpcStreamEvent, hs, pbEventType2PuppetEventName, pbEventType2GeneratePayloadFunc,
      internalEvent, unMarshal, jsonUnmarshal, eventPayload2PuppetPayload, PuppetPadPlus.SetID,
      PuppetPadPlus.Emit] at h
    subst h
    rfl

/-- C2, divergence evaluated.  On a fresh adapter an AUTO_LOGIN message for wxid_a
is processed and the framework identity becomes wxid_a, and afterwards `isLogin`
is false and the contact cache has no entry for wxid_a; a QRCODE_LOGIN message
for wxid_a stores the contact and leaves `isLogin` false as well; and on an
adapter whose `Uin` is 42 an ACCOUNT_LOGOUT message leaves `isLogin` true. -/
theorem onGrpcStreamEvent_isLogin_unchanged_witness :
    onGrpcStreamEvent sampleDeps {}
        ⟨.AUTO_LOGIN, "\x7b\"WechatUser\":\x7b\"UserName\":\"wxid_a\"\x7d\x7d", "", "", ""⟩
      = .ok { Puppet := { id := "wxid_a",
                          emitted := [[.eventName .Login, .login { ContactId := "wxid_a" }]] } } ∧
    isLogin { Puppet := { id := "wxid_a",
                          emitted := [[.eventName .Login, .login { ContactId := "wxid_a" }]] } }
      = false ∧
    cache.Map.Load (PuppetPadPlus.contactPayload
        { Puppet := { id := "wxid_a",
                      emitted := [[.eventName .Login, .login { ContactId := "wxid_a" }]] } })
      "wxid_a" = none ∧
    onGrpcStreamEvent sampleDeps {}
        ⟨.QRCODE_LOGIN, "\x7b\"UserName\":\"wxid_a\",\"NickName\":\"Ann\"\x7d", "", "", ""⟩
      = .ok { Puppet := { id := "wxid_a",
                          emitted := [[.eventName .Login, .login { ContactId := "wxid_a" }]] }
              contactPayload :=
                [("wxid_a", { ContactType := 3, NickName := "Ann", UserName := "wxid_a" })] } ∧
    isLogin { Puppet := { id := "wxid_a",
                          emitted := [[.eventName .Login, .login { ContactId := "wxid_a" }]] }
              contactPayload :=
                [("wxid_a", { ContactType := 3, NickName := "Ann", UserName := "wxid_a" })] }
      = false ∧
    onGrpcStreamEvent sampleDeps { Uin := "42", Puppet := { id := "wxid_a" } }
        ⟨.ACCOUNT_LOGOUT, "\x7b\"Uin\":\"42\"\x7d", "", "", ""⟩
      = .ok { Uin := "42"
              Puppet := { emitted := [[.eventName .Logout,
                .logout { ContactId := "42", Data := "\x7b\"Uin\":\"42\"\x7d" }]] } } ∧
    isLogin { Uin := "42"
              Puppet := { emitted := [[.eventName .Logout,
                .logout { ContactId := "42", Data := "\x7b\"Uin\":\"42\"\x7d" }]] } }
      = true :=
  ⟨by decide,
    (onGrpcStreamEvent_isLogin_unchanged sampleDeps {} _
      ⟨.AUTO_LOGIN, "\x7b\"WechatUser\":\x7b\"UserName\":\"wxid_a\"\x7d\x7d", "", "", ""⟩
      (by decide)).1,
    by decide, by decide, by decide, by decide, by decide⟩

/-- C3, divergence: a CONTACT_MODIFY message, whatever its payload, is dropped by
the guard on the event-name table, which lets only CONTACT_LIST through; the
adapter is returned as it was, so nothing is converted and nothing is stored.
On a fresh adapter the contact cache has no entry for the username of the
message afterwards. -/
theorem onGrpcStreamEvent_CONTACT_MODIFY_dropped :
    (∀ (d : Deps) (p : PuppetPadPlus) (raw t r u : String),
      onGrpcStreamEvent d p ⟨.CONTACT_MODIFY, raw, t, r, u⟩ = .ok p) ∧
    (sampleDeps.unmarshalRPCContactPayload
        "\x7b\"UserName\":\"wxid_c\",\"NickName\":\"Cy\"\x7d" {}).1.UserName = "wxid_c" ∧
    ∃ q, onGrpcStreamEvent sampleDeps {}
        ⟨.CONTACT_MODIFY, "\x7b\"UserName\":\"wxid_c\",\"NickName\":\"Cy\"\x7d", "", "", ""⟩ = .ok q ∧
      q.contactPayload.Load "wxid_c" = none := by
  refine ⟨?_, by decide, {}, by decide, by decide⟩
  intro d p raw t r u
  by_cases hs : raw = "EXPIRED_TOKEN" ∨ raw = "INVALID_TOKEN"
  · simp [onGrpcStreamEvent, hs]
  · simp [onGrpcStreamEvent, hs, pbEventType2PuppetEventName]

/-- C4: a response type that is not a key of `pbEventType2PuppetEventName` and is
not CONTACT_LIST makes the handler return with the adapter exactly as it was, for
every payload: no call of `Emit` is added, both caches and the identity are the
same. -/
theorem onGrpcStreamEvent_unsupported (d : Deps) (p : PuppetPadPlus) (resp : pd.StreamResponse)
    (hkey : pbEventType2PuppetEventName resp.ResponseType = none)
    (hcl : resp.ResponseType ≠ .CONTACT_LIST) :
    onGrpcStreamEvent d p resp = .ok p := by
  by_cases hs : resp.Data = "EXPIRED_TOKEN" ∨ resp.Data = "INVALID_TOKEN"
  · simp [onGrpcStreamEvent, hs]
  · simp [onGrpcStreamEvent, hs, hkey, hcl]

/-- C4 evaluated: a message of a response type that padplus.go does not name, on an
adapter that is logged in and has a cached message and contact. -/
theorem onGrpcStreamEvent_unsupported_witness :
    pbEventType2PuppetEventName (.other 99) = none ∧
    pd.ResponseType.other 99 ≠ .CONTACT_LIST ∧
    onGrpcStreamEvent sampleDeps
        { Puppet := { id := "wxid_a" }, Uin := "42",
          messagePayload := [("m0", { MsgId := "m0" })],
          contactPayload := [("wxid_a", { UserName := "wxid_a" })] }
        ⟨.other 99, "\x7b\"MsgId\":\"m1\",\"Content\":\"hi\"\x7d", "", "", ""⟩
      = .ok { Puppet := { id := "wxid_a" }, Uin := "42",
              messagePayload := [("m0", { MsgId := "m0" })],
              contactPayload := [("wxid_a", { UserName := "wxid_a" })] } :=
  ⟨by decide, by decide,
    onGrpcStreamEvent_unsupported sampleDeps _ ⟨.other 99, _, "", "", ""⟩ (by decide) (by decide)⟩

/-- C5, as stated, fails: on an adapter with a channel and no active stream, `Stop`
returns after `stopGrpcStream` reports that there is no stream, and the channel
is neither closed nor cleared. -/
theorem Stop_keeps_channel_without_stream :
    ¬ ((Stop sampleDeps { grpcConn := some 7, grpcClient := some 7 }).p.eventStream = none ∧
        (Stop sampleDeps { grpcConn := some 7, grpcClient := some 7 }).p.grpcConn = none) ∧
    (Stop sampleDeps { grpcConn := some 7, grpcClient := some 7 }).p.grpcConn = some 7 ∧
    (Stop sampleDeps { grpcConn := some 7, grpcClient := some 7 }).calls = [] ∧
    (Stop sampleDeps { grpcConn := some 7, grpcClient := some 7 }).logs
      = ["PuppetPadPlus stopGrpcStream()", "PuppetHostie Stop err: no event stream\n"] := by
  decide

/-- C5, amended: for every adapter state, `Stop` leaves the adapter logged out
(`Uin` empty), adds one `Emit` call with a Logout payload carrying the previous
`Uin` exactly when the adapter was logged in beforehand, and leaves `eventStream`
cleared.  When a stream was active it calls `CloseSend` on it and then closes and
clears the channel, if one is set, so `grpcConn` is cleared; an error of
`CloseSend` is only logged.  When no stream was active it logs the error of
`stopGrpcStream` and returns with `grpcConn` as it was and no backend call. -/
theorem Stop_amended (d : Deps) (p : PuppetPadPlus) :
    isLogin (Stop d p).p = false ∧
    (Stop d p).p.Puppet.emitted = p.Puppet.emitted ++
      (if isLogin p then [[.logout { ContactId := p.Uin, Data := "PuppetPadPlus Stop()" }]]
        else []) ∧
    (Stop d p).p.eventStream = none ∧
    (Stop d p).p.grpcConn = (if p.eventStream.isSome then none else p.grpcConn) ∧
    (Stop d p).calls =
      (match p.eventStream with
        | none => []
        | some s => .CloseSend s ::
            (match p.grpcConn with
              | none => []
              | some c => [.Close c])) ∧
    (∀ s e, p.eventStream = some s → d.CloseSend s = some e →
      ("PuppetHostie stopGrpcStream() err: " ++ e ++ "\n") ∈ (Stop d p).logs) ∧
    (p.eventStream = none → "PuppetHostie Stop err: no event stream\n" ∈ (Stop d p).logs) := by
  obtain ⟨b, conn, cl, es, uin, mc, cc⟩ := p
  by_cases hu : uin = "" <;> cases es <;> cases conn <;>
    simp [Stop, isLogin, hu, stopGrpcStream, stopGrpcClient, PuppetPadPlus.Emit,
      wechatyPuppet.Puppet.Emit] <;>
    intro s e hs he <;> subst hs <;> simp [he]

/-- C5, amended, evaluated: a logged-in adapter with a stream and a channel, on a
backend whose `CloseSend` fails. -/
theorem Stop_amended_witness :
    (Stop { sampleDeps with CloseSend := fun _ => some "closed" }
        { Uin := "42", eventStream := some 1, grpcConn := some 7, grpcClient := some 7 })
      = { p := { Puppet := { emitted :=
                  [[.logout { ContactId := "42", Data := "PuppetPadPlus Stop()" }]] } }
          logs := ["PuppetPadPlus stopGrpcStream()", "PuppetHostie stopGrpcStream() err: closed\n"]
          calls := [.CloseSend 1, .Close 7] } ∧
    ("PuppetHostie stopGrpcStream() err: " ++ "closed" ++ "\n") ∈
      (Stop { sampleDeps with CloseSend := fun _ => some "closed" }
        { Uin := "42", eventStream := some 1, grpcConn := some 7, grpcClient := some 7 }).logs :=
  ⟨by decide,
    (Stop_amended { sampleDeps with CloseSend := fun _ => some "closed" }
      { Uin := "42", eventStream := some 1, grpcConn := some 7, grpcClient := some 7 }).2.2.2.2.2.1
      1 "closed" rfl rfl⟩

/-- C6: run over receive results that begin with any messages followed by a receive
error, the reading loop hands exactly those messages to the handler, in order,
leaves everything after the error unread, and exits.  If the error is `io.EOF`
the adapter is as before, so no Reset event is emitted; if it is another error
the loop adds exactly one `Emit` call, a Reset event whose reason is the fixed
text followed by the text of the error. -/
theorem readLoop_stops_at_first_error (p : PuppetPadPlus) (msgs : List pd.StreamResponse)
    (rest : List RecvResult) :
    readLoop p (msgs.map .reply ++ .EOF :: rest)
      = { p := p, dispatched := msgs, unread := rest, exited := true } ∧
    ∀ text : String,
      readLoop p (msgs.map .reply ++ .err text :: rest)
        = { p := p.Emit [.eventName .Reset,
                  .reset { Data := "startGrpcStream() eventStream err: " ++ text }]
            dispatched := msgs, unread := rest, exited := true } ∧
      (readLoop p (msgs.map .reply ++ .err text :: rest)).p.Puppet.emitted
        = p.Puppet.emitted ++ [[.eventName .Reset,
            .reset { Data := "startGrpcStream() eventStream err: " ++ text }]] ∧
      ∃ before after : String,
        "startGrpcStream() eventStream err: " ++ text = before ++ text ++ after := by
  induction msgs with
  | nil =>
      refine ⟨rfl, fun text => ⟨rfl, rfl, "startGrpcStream() eventStream err: ", "", ?_⟩⟩
      simp
  | cons m ms ih =>
      obtain ⟨h1, h2⟩ := ih
      refine ⟨?_, fun text => ?_⟩
      · simp [readLoop, h1]
      · obtain ⟨h3, h4, h5⟩ := h2 text
        refine ⟨?_, ?_, h5⟩
        · simp [readLoop, h3]
        · simp [readLoop, h3, PuppetPadPlus.Emit, wechatyPuppet.Puppet.Emit]

/-- C7: a MESSAGE_RECEIVE message whose payload is not a token sentinel and decodes
without error to a message with `MsgId = m` is processed to the end; afterwards
the message cache maps `m` to the decoded message, and the one `Emit` call added
is a Message event whose `MessageId` is `m`. -/
theorem onGrpcStreamEvent_MESSAGE_RECEIVE (d : Deps) (p : PuppetPadPlus) (raw t r u m : String)
    (mp : payload.MessagePayload)
    (h1 : raw ≠ "EXPIRED_TOKEN") (h2 : raw ≠ "INVALID_TOKEN")
    (hdec : d.unmarshalMessagePayload raw {} = (mp, none)) (hm : mp.MsgId = m) :
    ∃ q, onGrpcStreamEvent d p ⟨.MESSAGE_RECEIVE, raw, t, r, u⟩ = .ok q ∧
      q.messagePayload.Load m = some mp ∧
      q.Puppet.emitted = p.Puppet.emitted ++ [[.eventName .Message, .message { MessageId := m }]] := by
  subst hm
  refine ⟨({ p with messagePayload := p.messagePayload.Store mp.MsgId mp } : PuppetPadPlus).Emit
    [.eventName .Message, .message { MessageId := mp.MsgId }], ?_, ?_, ?_⟩
  · simp [onGrpcStreamEvent, h1, h2, pbEventType2PuppetEventName,
      pbEventType2GeneratePayloadFunc, internalEvent, unMarshal, jsonUnmarshal, hdec,
      eventPayload2PuppetPayload]
  · exact cache_Load_Store _ _ _
  · simp [PuppetPadPlus.Emit, wechatyPuppet.Puppet.Emit]

/-- C7 evaluated: the payload with MsgId m1 gives cache key m1 and messageId m1. -/
theorem onGrpcStreamEvent_MESSAGE_RECEIVE_witness :
    ∃ q, onGrpcStreamEvent sampleDeps {}
        ⟨.MESSAGE_RECEIVE, "\x7b\"MsgId\":\"m1\",\"Content\":\"hi\"\x7d", "", "", ""⟩ = .ok q ∧
      q.messagePayload.Load "m1" = some { MsgId := "m1", Content := "hi" } ∧
      q.Puppet.emitted = [[.eventName .Message, .message { MessageId := "m1" }]] :=
  onGrpcStreamEvent_MESSAGE_RECEIVE sampleDeps {}
    "\x7b\"MsgId\":\"m1\",\"Content\":\"hi\"\x7d" "" "" "" "m1" { MsgId := "m1", Content := "hi" }
    (by decide) (by decide) (by decide) rfl

/-- C8: when `eventStream` is set, `startGrpcStream` returns the error
"event stream exists" (wrapped by the deferred function), makes no backend call,
so `Init` is not called, starts no reading goroutine, and leaves the adapter, and
with it the stream handle, exactly as it was. -/
theorem startGrpcStream_stream_exists (d : Deps) (p : PuppetPadPlus)
    (h : p.eventStream ≠ none) :
    startGrpcStream d p
      = .ok { p := p, err := some "startGrpcStream err:event stream exists", calls := [],
              reading := false } := by
  cases hes : p.eventStream with
  | none => exact absurd hes h
  | some s =>
      simp only [startGrpcStream, hes, Option.isSome_some, if_true]
      rfl

/-- C8 evaluated: an adapter that holds stream 5, on a backend whose `Init` would
hand out stream 1. -/
theorem startGrpcStream_stream_exists_witness :
    PuppetPadPlus.eventStream { eventStream := some 5, grpcConn := some 7, grpcClient := some 7 }
      ≠ none ∧
    startGrpcStream sampleDeps { eventStream := some 5, grpcConn := some 7, grpcClient := some 7 }
      = .ok { p := { eventStream := some 5, grpcConn := some 7, grpcClient := some 7 }
              err := some "startGrpcStream err:event stream exists"
              calls := []
              reading := false } ∧
    startGrpcStream sampleDeps { grpcConn := some 7, grpcClient := some 7 }
      = .ok { p := { eventStream := some 1, grpcConn := some 7, grpcClient := some 7 }
              err := none
              calls := [.Init ""]
              reading := true } :=
  ⟨by decide,
    startGrpcStream_stream_exists sampleDeps
      { eventStream := some 5, grpcConn := some 7, grpcClient := some 7 } (by decide),
    by decide⟩

/-- C9: for every response type, a message whose payload is exactly EXPIRED_TOKEN
or INVALID_TOKEN makes the handler return with the adapter exactly as it was: no
call of `Emit` is added, the identity and both caches are the same. -/
theorem onGrpcStreamEvent_token_sentinel (d : Deps) (p : PuppetPadPlus) (rt : pd.ResponseType)
    (t r u : String) :
    onGrpcStreamEvent d p ⟨rt, "EXPIRED_TOKEN", t, r, u⟩ = .ok p ∧
    onGrpcStreamEvent d p ⟨rt, "INVALID_TOKEN", t, r, u⟩ = .ok p := by
  constructor <;> simp [onGrpcStreamEvent]

/-- C10: a CONTACT_LIST message whose payload is not a token sentinel is processed to
the end.  CONTACT_LIST has no entry in `pbEventType2PuppetEventName`; the decoded
contact is stored in the contact cache under its `UserName`, and then `Emit` is
called exactly once, with the zero value of the event name and the decoded
contact, untranslated, as payload.  Nothing else of the adapter changes. -/
theorem onGrpcStreamEvent_CONTACT_LIST (d : Deps) (p : PuppetPadPlus) (raw t r u : String)
    (h1 : raw ≠ "EXPIRED_TOKEN") (h2 : raw ≠ "INVALID_TOKEN") :
    pbEventType2PuppetEventName .CONTACT_LIST = none ∧
    onGrpcStreamEvent d p ⟨.CONTACT_LIST, raw, t, r, u⟩
      = .ok { p with
          contactPayload := p.contactPayload.Store (d.unmarshalContactPayload raw {}).1.UserName
            (d.unmarshalContactPayload raw {}).1
          Puppet := { p.Puppet with
            emitted := p.Puppet.emitted ++
              [[.eventName .zero, .data (.ContactPayload (d.unmarshalContactPayload raw {}).1)]] } } ∧
    cache.Map.Load (p.contactPayload.Store (d.unmarshalContactPayload raw {}).1.UserName
        (d.unmarshalContactPayload raw {}).1) (d.unmarshalContactPayload raw {}).1.UserName
      = some (d.unmarshalContactPayload raw {}).1 := by
  refine ⟨rfl, ?_, cache_Load_Store _ _ _⟩
  simp [onGrpcStreamEvent, h1, h2, pbEventType2PuppetEventName,
    pbEventType2GeneratePayloadFunc, internalEvent, unMarshal, jsonUnmarshal,
    eventPayload2PuppetPayload, PuppetPadPlus.Emit, wechatyPuppet.Puppet.Emit]

/-- C10 evaluated: the contact list entry of wxid_b on a fresh adapter. -/
theorem onGrpcStreamEvent_CONTACT_LIST_witness :
    "\x7b\"UserName\":\"wxid_b\",\"NickName\":\"Bob\"\x7d" ≠ "EXPIRED_TOKEN" ∧
    "\x7b\"UserName\":\"wxid_b\",\"NickName\":\"Bob\"\x7d" ≠ "INVALID_TOKEN" ∧
    onGrpcStreamEvent sampleDeps {}
        ⟨.CONTACT_LIST, "\x7b\"UserName\":\"wxid_b\",\"NickName\":\"Bob\"\x7d", "", "", ""⟩
      = .ok { contactPayload := [("wxid_b", { UserName := "wxid_b", NickName := "Bob" })]
              Puppet := { emitted := [[.eventName .zero,
                .data (.ContactPayload { UserName := "wxid_b", NickName := "Bob" })]] } } :=
  ⟨by decide, by decide,
    (onGrpcStreamEvent_CONTACT_LIST sampleDeps {}
      "\x7b\"UserName\":\"wxid_b\",\"NickName\":\"Bob\"\x7d" "" "" "" (by decide) (by decide)).2.1⟩
